import Mathlib

/-!
Shallow embedding of the flappy-bird game simulation, translated from
`flappy_bird.py` (main loop) and `sprites.py` (Player, PipeObstacle,
GroundObstacle, GameManager).

Conventions:
* Python floats are modelled as rationals (`ℚ`); the comparisons decided in the
  proofs below have margins many orders of magnitude above double rounding
  error, so the rational model decides them the same way IEEE doubles do.
* Pixel coordinates are integers (`ℤ`), matching pygame rects.
* Asset-dependent dimensions (image widths/heights) are parameters of the
  definitions that need them; purely visual work (surface blits, fonts,
  masks, the scoreboard slide-in animation) is out of the simulation model.
-/

namespace FlappyBird

/-! ## Definitions -/

/-! ### SpeedController (`flappy_bird.py`, main loop lines 40-43) -/

/-- Builtin round of Python (round half to even) on rationals, to integers. -/
def pyRound (x : ℚ) : ℤ :=
  let f : ℤ := ⌊x⌋
  let r : ℚ := x - f
  if r < 1 / 2 then f
  else if 1 / 2 < r then f + 1
  else if f % 2 = 0 then f else f + 1

/-- The field game_fps of GameManager (target simulation frame rate). -/
def gameFps : ℚ := 120

/-- The field static_game_speed of GameManager (base scroll speed, px/tick). -/
def staticGameSpeed : ℤ := 2

/-- Correction factor computed by the main loop: the argument of round in
round(game.game_fps / min(clock.get_fps(), game.game_fps) if clock.get_fps() > 0
else game.game_fps); the conditional expression is the whole argument of round,
so the else-branch rounds game_fps itself. -/
def correctionFactor (fps : ℚ) : ℤ :=
  pyRound (if 0 < fps then gameFps / min fps gameFps else gameFps)

/-- game.game_speed as assigned each frame of the main loop:
the rounded correction factor times static_game_speed. -/
def gameSpeedUpdate (fps : ℚ) : ℤ :=
  correctionFactor fps * staticGameSpeed

/-! ### Difficulty ramp (`sprites.py`, GameManager.move_obstacles lines 334-335) -/

/-- The literal 0.225225225 subtracted from pipe_spawning_dist per passed pair. -/
def pipeSpawnDecrement : ℚ := 225225225 / 1000000000

/-- One pass-through update of pipe_spawning_dist:
if self.pipe_spawning_dist > 375: self.pipe_spawning_dist -= 0.225225225. -/
def pipeSpawnStep (t : ℚ) : ℚ :=
  if 375 < t then t - pipeSpawnDecrement else t

/-- pipe_spawning_dist after k passed pairs, starting from its initial value 600
(restart_game does not touch this field, so every reachable value is of this form). -/
def pipeSpawningDistAfter (k : ℕ) : ℚ :=
  pipeSpawnStep^[k] 600

/-! ### Player physics (`sprites.py`, class Player) -/

/-- The field gravity of Player. -/
def gravity : ℚ := 14

/-- The field jump_vel of Player. -/
def jumpVel : ℚ := -51 / 10

/-- The field min_rotation of Player. -/
def minRotation : ℚ := -15

/-- The field max_rotation of Player. -/
def maxRotation : ℚ := 90

/-- The rotation part of Player.impose_gravity, given the current rotation r and
the instantaneous velocity vel = gravity * time + jump_vel:
if math.ceil(vel) > 0: if rotation < max: rotation = min(max, rotation + ceil(vel) / 2.5);
else: if rotation > min: rotation = max(min, rotation - abs(math.ceil(vel * 2))). -/
def rotationStep (r v : ℚ) : ℚ :=
  if 0 < ⌈v⌉ then
    if r < maxRotation then min maxRotation (r + (⌈v⌉ : ℚ) / (5 / 2)) else r
  else
    if minRotation < r then max minRotation (r - |((⌈v * 2⌉ : ℤ) : ℚ)|) else r

/-- The simulation state of a Player: rect.topleft, fall time, rotation, and the
disable_jumping flag. -/
structure PlayerState where
  pos : ℤ × ℤ
  time : ℚ
  rotation : ℚ
  disableJumping : Bool
deriving DecidableEq

/-- Player.impose_gravity: vel = gravity * time + jump_vel; the rect moves down
by ceil(vel); time is re-read from the external clock (here an input); the
rotation is updated from vel as in `rotationStep`. -/
def imposeGravity (newTime : ℚ) (p : PlayerState) : PlayerState :=
  let vel := gravity * p.time + jumpVel
  { p with
    pos := (p.pos.1, p.pos.2 + ⌈vel⌉)
    time := newTime
    rotation := rotationStep p.rotation vel }

/-- Modelled from the claim wording of C8: on the rising branch the rotation
would decrease at rate abs(ceil(v)) * 2 (the code instead uses abs(ceil(v * 2))). -/
def rotationStepClaimed (r v : ℚ) : ℚ :=
  if 0 < ⌈v⌉ then min maxRotation (r + (⌈v⌉ : ℚ) / (5 / 2))
  else max minRotation (r - |(⌈v⌉ : ℚ)| * 2)

/-- The amended rotation update, written from the amended spec wording: falling
(ceil(v) > 0) increases rotation by ceil(v)/2.5 capped at 90, rising decreases it
by abs(ceil(2 v)) floored at -15. -/
def rotationStepAmended (r v : ℚ) : ℚ :=
  if 0 < ⌈v⌉ then min maxRotation (r + (⌈v⌉ : ℚ) / (5 / 2))
  else max minRotation (r - |((⌈2 * v⌉ : ℤ) : ℚ)|)

/-- The player rotation after a sequence of velocity values, starting from the
initial rotation 1 set in Player.__init__ (and rewritten by Player.reset). -/
def rotationAfter (vs : List ℚ) : ℚ :=
  vs.foldl rotationStep 1

/-! ### GameManager state (`sprites.py`, class GameManager) -/

/-- SCREEN_WIDTH of `flappy_bird.py`; after setup_game the ground strip is also
scaled to this width. -/
def screenWidth : ℤ := 1200

/-- The field player_starting_pos of GameManager. -/
def playerStartingPos : ℤ × ℤ := (100, 400)

/-- The field player_max_idle_pos_y of GameManager. -/
def playerMaxIdlePosY : ℤ := 50

/-- The field player_min_idle_pos_y of GameManager. -/
def playerMinIdlePosY : ℤ := 50

/-- The field score_increase of GameManager. -/
def scoreIncrease : ℕ := 1

/-- A live PipeObstacle: its serial number and the left edge of its rect.
The gap geometry of a freshly spawned pair is modelled separately below. -/
structure Pipe where
  serialNum : ℕ
  left : ℤ
deriving DecidableEq

/-- The simulation-relevant state of a GameManager (surfaces, fonts and button
widgets are rendering collaborators and stay outside the model). The
scoreboardScores field records the (score, best) pair baked into the scoreboard
overlay when it was last initialized, none before the first game over. -/
structure GMState where
  gameStarted : Bool
  gameEnded : Bool
  score : ℕ
  bestScore : ℕ
  previousPipeSerial : ℕ
  currentPipeSerial : ℕ
  pipeSpawningDist : ℚ
  lastPipeGapPos : ℤ
  distanceFromLastPipe : ℚ
  player : PlayerState
  playerIdleVel : ℤ
  groundLeft : ℤ
  pipes : List Pipe
  scoreboardScores : Option (ℕ × ℕ)
deriving DecidableEq

/-- The state after GameManager.__init__ and setup_game: score and serials 0,
spawn threshold 600, empty pipe set, player at player_starting_pos with
rotation 1, idle velocity 1. -/
def initGMState : GMState where
  gameStarted := false
  gameEnded := false
  score := 0
  bestScore := 0
  previousPipeSerial := 0
  currentPipeSerial := 0
  pipeSpawningDist := 600
  lastPipeGapPos := 0
  distanceFromLastPipe := 0
  player := { pos := playerStartingPos, time := 0, rotation := 1, disableJumping := false }
  playerIdleVel := 1
  groundLeft := 0
  pipes := []
  scoreboardScores := none

/-- Player.reset(topleft): zero the clock and fall time, rotation back to 1,
re-enable jumping, move the rect to topleft. -/
def playerReset (topleft : ℤ × ℤ) (p : PlayerState) : PlayerState :=
  { p with time := 0, rotation := 1, disableJumping := false, pos := topleft }

/-- GameManager.initiate_game (the start-button callback): set game_started and
reset the spawn-distance accumulator. -/
def initiateGame (g : GMState) : GMState :=
  { g with gameStarted := true, distanceFromLastPipe := 0 }

/-- GameManager.restart_game (the restart-button callback): clear both state
flags, reset the player, zero the score and both serial counters, and kill
every PipeObstacle. It does not touch pipe_spawning_dist, last_pipe_gap_pos,
distance_from_last_pipe or best_score. -/
def restartGame (g : GMState) : GMState :=
  { g with
    gameEnded := false
    gameStarted := false
    player := playerReset playerStartingPos g.player
    score := 0
    previousPipeSerial := 0
    currentPipeSerial := 0
    pipes := [] }

/-- The simulation content of GameManager.initiate_game_over_screen: the block
guarded by `if not self.game_ended` captures best_score = max(best, score) and
re-renders the scoreboard from the current score and best; every call then sets
game_ended and disables jumping. The overlay slide-in movement is rendering. -/
def initiateGameOverScreen (g : GMState) : GMState :=
  let g1 :=
    if g.gameEnded = true then g
    else
      let newBest := if g.bestScore < g.score then g.score else g.bestScore
      { g with bestScore := newBest, scoreboardScores := some (g.score, newBest) }
  { g1 with gameEnded := true, player := { g1.player with disableJumping := true } }

/-- GroundObstacle.move for the scaled ground strip (image width = screenWidth,
placeholder rect at left 0): shift the moving image left by the distance and
wrap it behind its follow-up copy once it is fully off screen. -/
def groundMove (d : ℤ) (left : ℤ) : ℤ :=
  let l := left - d
  if l + screenWidth < 0 then l + screenWidth else l

/-- GameManager.add_pipes restricted to the tracked state: both new pipes carry
serial previous_pipe_serial and enter at x = screen width; the serial counter
advances and last_pipe_gap_pos records the randomly drawn top-pipe height
(supplied here as the input rand; the gap geometry is modelled separately). -/
def addPipesGM (rand : ℤ) (g : GMState) : GMState :=
  { g with
    lastPipeGapPos := rand
    pipes := g.pipes ++
      [{ serialNum := g.previousPipeSerial, left := screenWidth },
       { serialNum := g.previousPipeSerial, left := screenWidth }]
    previousPipeSerial := g.previousPipeSerial + 1 }

/-- Accumulator for the loop body of GameManager.move_obstacles over the pipes. -/
structure MoveAcc where
  pipes : List Pipe
  currentPipeSerial : ℕ
  score : ℕ
  pipeSpawningDist : ℚ
deriving DecidableEq

/-- One iteration of the move_obstacles loop on a PipeObstacle: move it left by
the game speed (killing it once its right edge is at or past x = 0, pw being
its asset width), and if it is the current pair and the player rect is past its
left edge, advance the current serial, add the score increase, and shrink the
spawn threshold as in `pipeSpawnStep`. The pass check runs after the move, also
for a pipe that was just killed, exactly as in the source loop. -/
def movePipeStep (speed pw playerLeft : ℤ) (acc : MoveAcc) (p : Pipe) : MoveAcc :=
  let p1 : Pipe := { p with left := p.left - speed }
  let acc1 :=
    if p1.serialNum = acc.currentPipeSerial ∧ p1.left < playerLeft then
      { acc with
        currentPipeSerial := acc.currentPipeSerial + 1
        score := acc.score + scoreIncrease
        pipeSpawningDist := pipeSpawnStep acc.pipeSpawningDist }
    else acc
  if p1.left + pw ≤ 0 then acc1 else { acc1 with pipes := acc1.pipes ++ [p1] }

/-- GameManager.move_obstacles: move the ground and every live pipe by the game
speed and perform the pass-through scoring on the current pair. -/
def moveObstacles (speed pw : ℤ) (g : GMState) : GMState :=
  let acc := g.pipes.foldl (movePipeStep speed pw g.player.pos.1)
    { pipes := [], currentPipeSerial := g.currentPipeSerial,
      score := g.score, pipeSpawningDist := g.pipeSpawningDist }
  { g with
    groundLeft := groundMove speed g.groundLeft
    pipes := acc.pipes
    currentPipeSerial := acc.currentPipeSerial
    score := acc.score
    pipeSpawningDist := acc.pipeSpawningDist }

/-- GameManager.loop_pipes: when the accumulated distance has reached the spawn
threshold, or equals 0, reset the accumulator and spawn a new pair. -/
def loopPipesGM (rand : ℤ) (g : GMState) : GMState :=
  if g.pipeSpawningDist ≤ g.distanceFromLastPipe ∨ g.distanceFromLastPipe = 0 then
    addPipesGM rand { g with distanceFromLastPipe := 0 }
  else g

/-- The starting-screen idle animation of GameManager.update (lines 318-322):
move the player rect by the idle velocity, then reverse at the upper bound and
force the velocity positive at the lower bound. -/
def idleAnimationStep (g : GMState) : GMState :=
  let p := g.player
  let y := p.pos.2 + g.playerIdleVel
  let v :=
    if playerStartingPos.2 + playerMaxIdlePosY ≤ y then -g.playerIdleVel
    else if y ≤ playerStartingPos.2 - playerMinIdlePosY then |g.playerIdleVel|
    else g.playerIdleVel
  { g with player := { p with pos := (p.pos.1, y) }, playerIdleVel := v }

/-- GameManager.update (simulation part). Inputs: this frame's game speed, the
pipe asset width, the random draw used by a possible spawn, the Player.update
step (a function, since the player consumes input events and the real clock),
and the result of the pixel-mask collision test (an oracle, since masks are
asset data). Order as in the source: game-over tick or obstacle movement, then
the player step when the game has started, then — when playing — the spawn
check, the distance accumulation and the collision branch, or — before the
start — the idle animation. -/
def update (speed pw rand : ℤ) (playerTick : PlayerState → PlayerState)
    (collides : Bool) (g : GMState) : GMState :=
  let g1 := if g.gameEnded = true then initiateGameOverScreen g else moveObstacles speed pw g
  let g2 := if g1.gameStarted = true then { g1 with player := playerTick g1.player } else g1
  if g2.gameStarted = true ∧ g2.gameEnded = false then
    let g3 := loopPipesGM rand g2
    let g4 := { g3 with distanceFromLastPipe := g3.distanceFromLastPipe + (speed : ℚ) }
    if collides then initiateGameOverScreen g4 else g4
  else if g2.gameStarted = false then idleAnimationStep g2
  else g2

/-- The post-spawn-check states of a sequence of playing ticks: each element of
the input list carries the spawn threshold as left by that tick's
move_obstacles call and the tick's game speed; for each tick the spawn check
runs first and the displacement is accumulated afterwards, as in update
(lines 303-306). The listed states are those immediately after loop_pipes
returns. -/
def genPostStates (rand : ℤ) (g : GMState) : List (ℚ × ℤ) → List GMState
  | [] => []
  | u :: us =>
    let g1 := loopPipesGM rand { g with pipeSpawningDist := u.1 }
    g1 :: genPostStates rand
      { g1 with distanceFromLastPipe := g1.distanceFromLastPipe + (u.2 : ℚ) } us

/-- The oscillation invariant of the starting-screen idle animation: the idle
velocity is ±1 and the player rect y sits between start.y - 50 and
start.y + 50, moving away from a bound whenever it touches one. -/
def idleInv (g : GMState) : Prop :=
  (g.playerIdleVel = 1 ∨ g.playerIdleVel = -1) ∧
  playerStartingPos.2 - playerMinIdlePosY ≤ g.player.pos.2 ∧
  g.player.pos.2 ≤ playerStartingPos.2 + playerMaxIdlePosY ∧
  (g.player.pos.2 = playerStartingPos.2 + playerMaxIdlePosY → g.playerIdleVel = -1) ∧
  (g.player.pos.2 = playerStartingPos.2 - playerMinIdlePosY → g.playerIdleVel = 1)

instance (g : GMState) : Decidable (idleInv g) := by
  unfold idleInv
  infer_instance

/-! ### Event loop (`flappy_bird.py`, lines 27-35) -/

/-- The event kinds the main loop inspects: quit, a keydown (isF marks the f
key), the custom ADD_PIPE event, and anything else. -/
inductive PyEvent where
  | quit
  | keydown (isF : Bool)
  | addPipe
  | other
deriving DecidableEq

/-- The per-frame event loop: a quit event clears the running flag, a keydown of
f posts ADD_PIPE to the queue (delivered next frame, returned here as the
posted list), and a pending ADD_PIPE event calls game.add_pipes() whenever
game.game_started holds. Returns the game state, the posted events in order,
and the running flag. -/
def eventLoop (rand : ℤ) (g : GMState) : List PyEvent → GMState × List PyEvent × Bool
  | [] => (g, [], true)
  | e :: es =>
    let g1 := if e = PyEvent.addPipe ∧ g.gameStarted = true then addPipesGM rand g else g
    let r := eventLoop rand g1 es
    (r.1, (if e = PyEvent.keydown true then [PyEvent.addPipe] else []) ++ r.2.1,
      if e = PyEvent.quit then false else r.2.2)

/-! ### Spawn geometry (`sprites.py`, GameManager.add_pipes and
PipeObstacle.change_height) -/

/-- The field min_pipe_height of GameManager. -/
def minPipeHeight : ℤ := 70

/-- The field pipe_gap_width of GameManager. -/
def pipeGapWidth : ℤ := 200

/-- The field pipe_height_offsets of GameManager. -/
def pipeHeightOffsets : Fin 3 → ℤ := ![150, 300, 450]

/-- The tuple short_pipe_h_offset (upper bounds of the randint in the
top-of-screen branch), indexed by the weighted choice. -/
def shortPipeHOffset (i : Fin 3) : ℤ :=
  pipeHeightOffsets i + minPipeHeight

/-- The tuple far_pipe_h_offset (upper bounds of the randint in the
ground-side branch), indexed by the weighted choice. -/
def farPipeHOffset (i : Fin 3) : ℤ :=
  pipeHeightOffsets i + minPipeHeight + pipeGapWidth

/-- farthest_side = max(self.game_height, 0, key=lambda x: abs(x - last)):
max over (game_height, 0) of the keyed values, the first argument winning ties. -/
def farthestSide (gameHeight lastGapPos : ℤ) : ℤ :=
  if |0 - lastGapPos| ≤ |gameHeight - lastGapPos| then gameHeight else 0

/-- The drawn top_pipe_height: farthest_side + randint(...) in the top branch
(farthest_side = 0), farthest_side - randint(...) in the ground branch. The
randint draw r is an input; its admissible range depends on the branch. -/
def topPipeHeightDraw (gameHeight lastGapPos r : ℤ) : ℤ :=
  if farthestSide gameHeight lastGapPos = 0 then 0 + r else gameHeight - r

/-- The total image height produced by PipeObstacle.change_height(h): the
height is clamped below by the head image height headH, and the rebuilt image
is exactly body (h - headH) plus head (headH) tall. -/
def pipeTotalHeight (headH h : ℤ) : ℤ :=
  max headH h

/-- The top gap edge of a freshly spawned pair: the top pipe is blitted with
topleft = (width, 0), so its bottom edge is its total height for the drawn
top_pipe_height h. -/
def topGapEdge (headH h : ℤ) : ℤ :=
  pipeTotalHeight headH h

/-- The bottom gap edge of a freshly spawned pair: the bottom pipe has height
change_height(game_height - h - gap) and is placed with bottomleft =
(width, game_height), so its top edge is game_height minus its total height. -/
def bottomGapEdge (gameHeight headH h : ℤ) : ℤ :=
  gameHeight - pipeTotalHeight headH (gameHeight - h - pipeGapWidth)

/-! ### Concrete states used by counterexamples and witnesses -/

/-- A reachable game-over state: score 5 beat the earlier best 3, one pipe pair
is still alive, the spawn threshold has decreased to 500 and the last gap was
at 345. -/
def gameOverExample : GMState :=
  { initGMState with
    gameStarted := true
    gameEnded := true
    score := 5
    bestScore := 5
    previousPipeSerial := 3
    currentPipeSerial := 3
    pipeSpawningDist := 500
    lastPipeGapPos := 345
    distanceFromLastPipe := 42
    pipes := [{ serialNum := 2, left := 700 }, { serialNum := 2, left := 700 }]
    scoreboardScores := some (5, 3)
    player := { pos := (100, 600), time := 2, rotation := 90, disableJumping := true } }

/-- A playing state about to collide: score 7, best 3 from a previous run. -/
def playingExample : GMState :=
  { initGMState with gameStarted := true, score := 7, bestScore := 3 }

/-! ## Lemmas and theorems -/

/-- Closed form for the spawn threshold: the guard 375 < t stays true for
exactly the first 1000 steps. -/
lemma pipeSpawningDistAfter_eq (k : ℕ) :
    pipeSpawningDistAfter k = 600 - ((min k 1000 : ℕ) : ℚ) * pipeSpawnDecrement := by
  induction k with
  | zero => simp [pipeSpawningDistAfter]
  | succ k ih =>
    rw [pipeSpawningDistAfter, Function.iterate_succ_apply', ← pipeSpawningDistAfter, ih,
      pipeSpawnStep]
    by_cases hk : k ≤ 999
    · have hmin : min k 1000 = k := by omega
      have hmin' : min (k + 1) 1000 = k + 1 := by omega
      rw [hmin, hmin', if_pos]
      · push_cast
        ring
      · have hkq : (k : ℚ) ≤ 999 := by exact_mod_cast hk
        have h1 : (k : ℚ) * pipeSpawnDecrement ≤ 999 * pipeSpawnDecrement := by
          have hd : (0 : ℚ) ≤ pipeSpawnDecrement := by norm_num [pipeSpawnDecrement]
          exact mul_le_mul_of_nonneg_right hkq hd
        have h2 : (999 : ℚ) * pipeSpawnDecrement < 225 := by norm_num [pipeSpawnDecrement]
        linarith
    · have hmin : min k 1000 = 1000 := by omega
      have hmin' : min (k + 1) 1000 = 1000 := by omega
      rw [hmin, hmin', if_neg]
      push_cast
      norm_num [pipeSpawnDecrement]

/-- Claim C1 — divergence evidence. The code agrees with the claim for
F_actual = 60 (factor 2) and F_actual = 120 (factor 1), but at F_actual = 0 the
conditional expression is the whole argument of round, so the code computes
round(game_fps) = 120 as the correction factor and a displacement of 240 px,
not the claimed factor 1 with displacement equal to static_game_speed = 2. -/
theorem correctionFactor_fallback_divergence :
    correctionFactor 60 = 2 ∧ correctionFactor 120 = 1 ∧
    correctionFactor 0 = 120 ∧ gameSpeedUpdate 0 = 240 ∧
    gameSpeedUpdate 0 ≠ 1 * staticGameSpeed := by
  refine ⟨?_, ?_, ?_, ?_, ?_⟩ <;>
    norm_num [correctionFactor, gameSpeedUpdate, pyRound, gameFps, staticGameSpeed]

/-- Claim C4 — counterexample. After the 1000th passed pair the spawn distance
threshold equals 600 - 1000 * 0.225225225 = 374.774775 < 375: the guard stops
further decrements but does not clamp the value at 375, so the claimed
invariant pipe_spawning_dist >= 375 fails in a reachable state. -/
theorem spawnDist_drops_below_375 :
    pipeSpawningDistAfter 1000 < 375 := by
  rw [pipeSpawningDistAfter_eq]
  norm_num [pipeSpawnDecrement]

/-- Claim C4 — amended. The threshold starts at 600 and decreases by exactly
0.225225225 per passed pair while strictly above 375 (the first 1000 passes),
then stays constant; hence it always lies in [374.774775, 600]. It is bounded
below by 375 - 0.225225225, not by 375. -/
theorem spawnDist_evolution (k : ℕ) :
    pipeSpawningDistAfter 0 = 600 ∧
    pipeSpawningDistAfter k = 600 - ((min k 1000 : ℕ) : ℚ) * pipeSpawnDecrement ∧
    374774775 / 1000000 ≤ pipeSpawningDistAfter k ∧
    pipeSpawningDistAfter k ≤ 600 := by
  refine ⟨by simp [pipeSpawningDistAfter], pipeSpawningDistAfter_eq k, ?_, ?_⟩ <;>
    rw [pipeSpawningDistAfter_eq]
  · have hm : ((min k 1000 : ℕ) : ℚ) ≤ 1000 := by
      have : min k 1000 ≤ 1000 := min_le_right k 1000
      exact_mod_cast this
    have hd : (0 : ℚ) ≤ pipeSpawnDecrement := by norm_num [pipeSpawnDecrement]
    have h1 : ((min k 1000 : ℕ) : ℚ) * pipeSpawnDecrement ≤ 1000 * pipeSpawnDecrement :=
      mul_le_mul_of_nonneg_right hm hd
    have h2 : (1000 : ℚ) * pipeSpawnDecrement = 225225225 / 1000000 := by
      norm_num [pipeSpawnDecrement]
    linarith
  · have hm : (0 : ℚ) ≤ ((min k 1000 : ℕ) : ℚ) := by positivity
    have hd : (0 : ℚ) ≤ pipeSpawnDecrement := by norm_num [pipeSpawnDecrement]
    nlinarith

/-- Claim C8 — counterexample. At rotation 1 and velocity -3/4 (rising) the code
decreases the rotation by abs(ceil(-3/4 * 2)) = 1, giving 0, while the claimed
rate abs(ceil(-3/4)) * 2 = 0 would leave it at 1. -/
theorem rotation_rising_rate_counterexample :
    rotationStep 1 (-3 / 4) = 0 ∧ rotationStepClaimed 1 (-3 / 4) = 1 ∧
    rotationStep 1 (-3 / 4) ≠ rotationStepClaimed 1 (-3 / 4) := by
  have h1 : ⌈(-(3 / 4) : ℚ)⌉ = 0 := by norm_num [Int.ceil_eq_iff]
  have h2 : ⌈(-(3 / 2) : ℚ)⌉ = -1 := by norm_num [Int.ceil_eq_iff]
  norm_num [rotationStep, rotationStepClaimed, minRotation, maxRotation, h1, h2, max_def]

/-- Claim C8 — amended. For any rotation in the clamped range [-15, 90], the
rotation part of impose_gravity increases by ceil(v)/2.5 capped at 90 when
ceil(v) > 0, and decreases by abs(ceil(2 v)) — not abs(ceil(v)) * 2 — floored at
-15 when rising; and the rotation never feeds back into position, velocity or
fall time: two players differing only in rotation move identically. -/
theorem rotationStep_characterization (r v : ℚ)
    (h1 : minRotation ≤ r) (h2 : r ≤ maxRotation) :
    rotationStep r v = rotationStepAmended r v ∧
    ∀ (p : PlayerState) (newTime rot : ℚ),
      (imposeGravity newTime { p with rotation := rot }).pos =
        (imposeGravity newTime p).pos ∧
      (imposeGravity newTime { p with rotation := rot }).time =
        (imposeGravity newTime p).time := by
  constructor
  · rw [rotationStep, rotationStepAmended, mul_comm v 2]
    simp only [minRotation, maxRotation] at h1 h2 ⊢
    split_ifs with hv hr hr
    · rfl
    · have hr : r = 90 := le_antisymm h2 (not_lt.mp hr)
      have hv' : (1 : ℚ) ≤ (⌈v⌉ : ℚ) := by exact_mod_cast hv
      have : (0 : ℚ) < (⌈v⌉ : ℚ) / (5 / 2) := by linarith
      rw [hr, min_eq_left (by linarith)]
    · rfl
    · have hr : r = -15 := le_antisymm (not_lt.mp hr) h1
      have habs : (0 : ℚ) ≤ |((⌈2 * v⌉ : ℤ) : ℚ)| := abs_nonneg _
      rw [hr, max_eq_left (by linarith)]
  · intro p newTime rot
    constructor <;> rfl

/-- Witness for `rotationStep_characterization` at rotation 1 and velocity 4. -/
theorem rotationStep_characterization_witness :
    minRotation ≤ (1 : ℚ) ∧ (1 : ℚ) ≤ maxRotation ∧
    rotationStep 1 4 = rotationStepAmended 1 4 :=
  ⟨by norm_num [minRotation], by norm_num [maxRotation],
    (rotationStep_characterization 1 4 (by norm_num [minRotation])
      (by norm_num [maxRotation])).1⟩

/-- One rotation step stays inside [min_rotation, max_rotation]. -/
lemma rotationStep_mem (r v : ℚ) (h1 : minRotation ≤ r) (h2 : r ≤ maxRotation) :
    minRotation ≤ rotationStep r v ∧ rotationStep r v ≤ maxRotation := by
  rw [rotationStep]
  simp only [minRotation, maxRotation] at h1 h2 ⊢
  split_ifs with hv hr hr
  · have hv' : (1 : ℚ) ≤ (⌈v⌉ : ℚ) := by exact_mod_cast hv
    have hd : (0 : ℚ) ≤ (⌈v⌉ : ℚ) / (5 / 2) := by linarith
    exact ⟨le_min (by norm_num) (by linarith), min_le_left _ _⟩
  · exact ⟨h1, h2⟩
  · have habs : (0 : ℚ) ≤ |((⌈v * 2⌉ : ℤ) : ℚ)| := abs_nonneg _
    exact ⟨le_max_left _ _, max_le (by norm_num) (by linarith)⟩
  · exact ⟨h1, h2⟩

/-- Folding rotation steps preserves the clamp range. -/
lemma rotation_foldl_mem (vs : List ℚ) :
    ∀ r, minRotation ≤ r → r ≤ maxRotation →
      minRotation ≤ vs.foldl rotationStep r ∧ vs.foldl rotationStep r ≤ maxRotation := by
  induction vs with
  | nil => intro r h1 h2; simpa using ⟨h1, h2⟩
  | cons v vs ih =>
    intro r h1 h2
    obtain ⟨a, b⟩ := rotationStep_mem r v h1 h2
    simpa using ih (rotationStep r v) a b

/-- Claim C9 — confirmed. For every sequence of per-tick velocities (hence for
every sequence of jump/no-jump inputs and ticks) the rotation stays in
[min_rotation, max_rotation] = [-15, 90]. -/
theorem rotation_always_clamped (vs : List ℚ) :
    minRotation ≤ rotationAfter vs ∧ rotationAfter vs ≤ maxRotation :=
  rotation_foldl_mem vs 1 (by norm_num [minRotation]) (by norm_num [maxRotation])

/-- Claim C2 — counterexample. From a reachable game-over state whose spawn
threshold has decreased to 500 and whose last gap position is 345, restart_game
leaves both DifficultyState fields unchanged (in particular not at their
initial values 600 and 0) and clears game_started, so the machine is on the
start screen, not in Playing. -/
theorem restart_not_full_reset :
    (restartGame gameOverExample).pipeSpawningDist ≠ 600 ∧
    (restartGame gameOverExample).lastPipeGapPos ≠ 0 ∧
    (restartGame gameOverExample).gameStarted ≠ true := by
  refine ⟨?_, ?_, ?_⟩ <;> norm_num [restartGame, gameOverExample, initGMState, playerReset]

/-- Claim C2 — amended. Restart from GameOver zeroes the score, repositions the
avatar at player_starting_pos with fall time and rotation reset and jumping
re-enabled, discards all live pipes, resets both serial counters and leaves the
best score unchanged; but it keeps the spawn-distance threshold and the last
gap position (DifficultyState is not reset) and returns the machine to the
start screen (game_started = false), not to Playing. -/
theorem restart_outcome (g : GMState) (h : g.gameEnded = true) :
    (restartGame g).score = 0 ∧
    (restartGame g).player.pos = playerStartingPos ∧
    (restartGame g).player.time = 0 ∧
    (restartGame g).player.rotation = 1 ∧
    (restartGame g).player.disableJumping = false ∧
    (restartGame g).pipes = [] ∧
    (restartGame g).previousPipeSerial = 0 ∧
    (restartGame g).currentPipeSerial = 0 ∧
    (restartGame g).bestScore = g.bestScore ∧
    (restartGame g).gameEnded = false ∧
    (restartGame g).gameStarted = false ∧
    (restartGame g).pipeSpawningDist = g.pipeSpawningDist ∧
    (restartGame g).lastPipeGapPos = g.lastPipeGapPos ∧
    (restartGame g).distanceFromLastPipe = g.distanceFromLastPipe := by
  simp [restartGame, playerReset]

/-- Witness for `restart_outcome` at the concrete game-over state. -/
theorem restart_outcome_witness :
    gameOverExample.gameEnded = true ∧
    (restartGame gameOverExample).score = 0 ∧
    (restartGame gameOverExample).player.pos = playerStartingPos ∧
    (restartGame gameOverExample).bestScore = gameOverExample.bestScore ∧
    (restartGame gameOverExample).pipeSpawningDist = gameOverExample.pipeSpawningDist :=
  ⟨rfl, (restart_outcome gameOverExample rfl).1, (restart_outcome gameOverExample rfl).2.1,
    (restart_outcome gameOverExample rfl).2.2.2.2.2.2.2.2.1,
    (restart_outcome gameOverExample rfl).2.2.2.2.2.2.2.2.2.2.2.1⟩

/-- On a state already in game over, the per-tick call of
initiate_game_over_screen changes neither best score nor scoreboard. -/
lemma initiateGameOverScreen_ended (s : GMState) (h : s.gameEnded = true) :
    (initiateGameOverScreen s).bestScore = s.bestScore ∧
    (initiateGameOverScreen s).scoreboardScores = s.scoreboardScores ∧
    (initiateGameOverScreen s).gameEnded = true := by
  simp [initiateGameOverScreen, h]

/-- Iterating initiate_game_over_screen on a game-over state is inert for best
score and scoreboard. -/
lemma initiateGameOverScreen_iterate (n : ℕ) (s : GMState) (h : s.gameEnded = true) :
    (initiateGameOverScreen^[n] s).bestScore = s.bestScore ∧
    (initiateGameOverScreen^[n] s).scoreboardScores = s.scoreboardScores ∧
    (initiateGameOverScreen^[n] s).gameEnded = true := by
  induction n generalizing s with
  | zero => exact ⟨rfl, rfl, h⟩
  | succ n ih =>
    rw [Function.iterate_succ_apply]
    obtain ⟨h1, h2, h3⟩ := initiateGameOverScreen_ended s h
    obtain ⟨i1, i2, i3⟩ := ih (initiateGameOverScreen s) h3
    exact ⟨by rw [i1, h1], by rw [i2, h2], i3⟩

/-- Claim C6 — confirmed. Entering game over from a playing state (game_ended
false) runs the one-shot effects exactly once: best becomes max(best, score)
(so best never decreases) and the scoreboard overlay is rendered from that
pair; any number of further game-over ticks leave best, the scoreboard and the
game-over flag untouched. -/
theorem game_over_entry_once (g : GMState) (h : g.gameEnded = false) (n : ℕ) :
    (initiateGameOverScreen g).gameEnded = true ∧
    (initiateGameOverScreen g).bestScore = max g.bestScore g.score ∧
    g.bestScore ≤ (initiateGameOverScreen g).bestScore ∧
    (initiateGameOverScreen g).scoreboardScores = some (g.score, max g.bestScore g.score) ∧
    (initiateGameOverScreen g).player.disableJumping = true ∧
    (initiateGameOverScreen^[n] (initiateGameOverScreen g)).bestScore
      = max g.bestScore g.score ∧
    (initiateGameOverScreen^[n] (initiateGameOverScreen g)).scoreboardScores
      = some (g.score, max g.bestScore g.score) ∧
    (initiateGameOverScreen^[n] (initiateGameOverScreen g)).gameEnded = true := by
  have hmax : (if g.bestScore < g.score then g.score else g.bestScore)
      = max g.bestScore g.score := by
    split_ifs <;> omega
  have e1 : (initiateGameOverScreen g).gameEnded = true := by
    simp [initiateGameOverScreen]
  have e2 : (initiateGameOverScreen g).bestScore = max g.bestScore g.score := by
    simp [initiateGameOverScreen, h, hmax]
  have e3 : (initiateGameOverScreen g).scoreboardScores
      = some (g.score, max g.bestScore g.score) := by
    simp [initiateGameOverScreen, h, hmax]
  have e4 : (initiateGameOverScreen g).player.disableJumping = true := by
    simp [initiateGameOverScreen]
  obtain ⟨i1, i2, i3⟩ :=
    initiateGameOverScreen_iterate n (initiateGameOverScreen g) e1
  exact ⟨e1, e2, by rw [e2]; omega, e3, e4, by rw [i1, e2], by rw [i2, e3], i3⟩

/-- Witness for `game_over_entry_once`: in `playingExample` the score 7 beats
the previous best 3, and two further game-over ticks keep best at 7. -/
theorem game_over_entry_once_witness :
    playingExample.gameEnded = false ∧
    (initiateGameOverScreen playingExample).bestScore = max 3 7 ∧
    (initiateGameOverScreen^[2] (initiateGameOverScreen playingExample)).bestScore
      = max 3 7 :=
  ⟨rfl, (game_over_entry_once playingExample rfl 2).2.1,
    (game_over_entry_once playingExample rfl 2).2.2.2.2.2.1⟩

/-- loop_pipes spawns a pair (advancing the serial counter) and resets the
accumulator exactly when the accumulated distance has reached the threshold or
equals 0. -/
lemma loopPipesGM_spawn_iff (rand : ℤ) (s : GMState) :
    ((loopPipesGM rand s).previousPipeSerial = s.previousPipeSerial + 1 ∧
      (loopPipesGM rand s).distanceFromLastPipe = 0) ↔
    (s.pipeSpawningDist ≤ s.distanceFromLastPipe ∨ s.distanceFromLastPipe = 0) := by
  rw [loopPipesGM]
  split_ifs with hcond
  · simpa [addPipesGM] using hcond
  · constructor
    · rintro ⟨a, -⟩
      omega
    · intro hc
      exact absurd hc hcond

/-- After loop_pipes the accumulator is nonnegative and strictly below the
(positive) threshold, the threshold being unchanged. -/
lemma loopPipesGM_dist (rand : ℤ) (s : GMState) (h0 : 0 ≤ s.distanceFromLastPipe)
    (ht : 0 < s.pipeSpawningDist) :
    0 ≤ (loopPipesGM rand s).distanceFromLastPipe ∧
    (loopPipesGM rand s).distanceFromLastPipe < (loopPipesGM rand s).pipeSpawningDist := by
  rw [loopPipesGM]
  split_ifs with hcond
  · simpa [addPipesGM] using ht
  · push_neg at hcond
    exact ⟨h0, hcond.1⟩

/-- Claim C5 — confirmed. Over any sequence of playing ticks (each tick flowing
a positive threshold out of move_obstacles and a nonnegative game speed into
the accumulator), every state immediately after the spawn check of loop_pipes
has its accumulator in [0, threshold); and a pair is spawned with the
accumulator reset exactly when the accumulated distance has reached the
threshold or is 0 (which, with positive displacements, happens only on the
first check after initiate_game). -/
theorem distance_accumulator_invariant (rand : ℤ) (g : GMState) (us : List (ℚ × ℤ))
    (hg : 0 ≤ g.distanceFromLastPipe)
    (hus : ∀ u ∈ us, 0 < u.1 ∧ 0 ≤ u.2) :
    (genPostStates rand g us).Forall
      (fun s => 0 ≤ s.distanceFromLastPipe ∧
        s.distanceFromLastPipe < s.pipeSpawningDist) ∧
    ∀ s : GMState,
      ((loopPipesGM rand s).previousPipeSerial = s.previousPipeSerial + 1 ∧
        (loopPipesGM rand s).distanceFromLastPipe = 0) ↔
      (s.pipeSpawningDist ≤ s.distanceFromLastPipe ∨ s.distanceFromLastPipe = 0) := by
  refine ⟨?_, fun s => loopPipesGM_spawn_iff rand s⟩
  induction us generalizing g with
  | nil => simp [genPostStates]
  | cons u us ih =>
    rw [genPostStates, List.forall_cons]
    have hu := hus u (List.mem_cons_self u us)
    have hd := loopPipesGM_dist rand { g with pipeSpawningDist := u.1 } hg hu.1
    refine ⟨hd, ?_⟩
    apply ih
    · have hu2 : (0 : ℚ) ≤ (u.2 : ℚ) := by exact_mod_cast hu.2
      have := hd.1
      simpa using add_nonneg this hu2
    · exact fun u' hu' => hus u' (List.mem_cons_of_mem u hu')

/-- Witness for `distance_accumulator_invariant`: two ticks from the initial
state (spawn at distance 0, then 2 px accumulated, below 600), and the spawn
condition instantiated at the concrete game-over state. -/
theorem distance_accumulator_invariant_witness :
    ((genPostStates 300 initGMState [(600, 2), (600, 2)]).Forall
      (fun s => 0 ≤ s.distanceFromLastPipe ∧
        s.distanceFromLastPipe < s.pipeSpawningDist)) ∧
    (((loopPipesGM 300 gameOverExample).previousPipeSerial =
        gameOverExample.previousPipeSerial + 1 ∧
      (loopPipesGM 300 gameOverExample).distanceFromLastPipe = 0) ↔
      (gameOverExample.pipeSpawningDist ≤ gameOverExample.distanceFromLastPipe ∨
        gameOverExample.distanceFromLastPipe = 0)) :=
  ⟨(distance_accumulator_invariant 300 initGMState [(600, 2), (600, 2)]
      (by norm_num [initGMState])
      (by intro u hu; fin_cases hu <;> norm_num)).1,
    (distance_accumulator_invariant 300 initGMState []
      (by norm_num [initGMState]) (by simp)).2 gameOverExample⟩

/-- Claim C7 — counterexample. In the initial start-screen state one update
tick moves the ground band (update runs move_obstacles whenever game_ended is
false, also before the game has started), so the ground does not stand still
on the start screen. -/
theorem start_screen_ground_moves :
    (update 2 52 300 id false initGMState).groundLeft ≠ initGMState.groundLeft := by
  norm_num [update, initGMState, moveObstacles, groundMove, screenWidth,
    idleAnimationStep, playerStartingPos, playerMaxIdlePosY, playerMinIdlePosY]

/-- The idle animation preserves the oscillation invariant. -/
lemma idleInv_step (g : GMState) (h : idleInv g) : idleInv (idleAnimationStep g) := by
  obtain ⟨hv, hlo, hhi, hup, hdn⟩ := h
  simp only [idleInv, idleAnimationStep, playerStartingPos, playerMaxIdlePosY,
    playerMinIdlePosY] at *
  rcases hv with h1 | h1 <;> rw [h1] <;> split_ifs <;> simp_all <;> omega

/-- Claim C7 — amended. On the start screen (game not started, not ended) with
no live pipes, an update tick spawns no pipe and leaves the serial counter and
the spawn-distance accumulator untouched, but the ground band does scroll by
the game speed; the player physics step is not invoked (fall time and rotation
unchanged — jump input is ignored) and the avatar keeps oscillating between
start.y - 50 and start.y + 50, reversing at each bound; the begin interaction
sets game_started with the accumulator reset to 0. -/
theorem start_screen_tick (speed pw rand : ℤ) (playerTick : PlayerState → PlayerState)
    (collides : Bool) (g : GMState)
    (hS : g.gameStarted = false) (hE : g.gameEnded = false)
    (hp : g.pipes = []) (hinv : idleInv g) :
    (update speed pw rand playerTick collides g).pipes = [] ∧
    (update speed pw rand playerTick collides g).previousPipeSerial
      = g.previousPipeSerial ∧
    (update speed pw rand playerTick collides g).groundLeft
      = groundMove speed g.groundLeft ∧
    (update speed pw rand playerTick collides g).player.time = g.player.time ∧
    (update speed pw rand playerTick collides g).player.rotation = g.player.rotation ∧
    (update speed pw rand playerTick collides g).distanceFromLastPipe
      = g.distanceFromLastPipe ∧
    idleInv (update speed pw rand playerTick collides g) ∧
    (initiateGame g).gameStarted = true ∧
    (initiateGame g).distanceFromLastPipe = 0 := by
  have hm : (moveObstacles speed pw g).gameStarted = false := by
    simp [moveObstacles, hS]
  have hm' : (moveObstacles speed pw g).gameEnded = false := by
    simp [moveObstacles, hE]
  have hu : update speed pw rand playerTick collides g
      = idleAnimationStep (moveObstacles speed pw g) := by
    rw [update]
    simp [hE, hm, hm']
  have hminv : idleInv (moveObstacles speed pw g) := by
    obtain ⟨a, b, c, d, e⟩ := hinv
    exact ⟨by simpa [moveObstacles] using a, by simpa [moveObstacles] using b,
      by simpa [moveObstacles] using c, by simpa [moveObstacles] using d,
      by simpa [moveObstacles] using e⟩
  rw [hu]
  refine ⟨?_, ?_, ?_, ?_, ?_, ?_, idleInv_step _ hminv, by simp [initiateGame],
    by simp [initiateGame]⟩ <;>
    simp [idleAnimationStep, moveObstacles, hp]

/-- Witness for `start_screen_tick` at the initial state with game speed 2. -/
theorem start_screen_tick_witness :
    (initGMState.gameStarted = false ∧ initGMState.gameEnded = false ∧
      initGMState.pipes = [] ∧ idleInv initGMState) ∧
    ((update 2 52 300 id false initGMState).pipes = [] ∧
      (update 2 52 300 id false initGMState).previousPipeSerial
        = initGMState.previousPipeSerial ∧
      (update 2 52 300 id false initGMState).groundLeft
        = groundMove 2 initGMState.groundLeft ∧
      (update 2 52 300 id false initGMState).player.time = initGMState.player.time ∧
      (update 2 52 300 id false initGMState).player.rotation
        = initGMState.player.rotation ∧
      (update 2 52 300 id false initGMState).distanceFromLastPipe
        = initGMState.distanceFromLastPipe ∧
      idleInv (update 2 52 300 id false initGMState) ∧
      (initiateGame initGMState).gameStarted = true ∧
      (initiateGame initGMState).distanceFromLastPipe = 0) :=
  ⟨⟨rfl, rfl, rfl, by decide⟩,
    start_screen_tick 2 52 300 id false initGMState rfl rfl rfl (by decide)⟩

/-- Claim C10 — confirmed. Whenever game_started holds (it also holds in
GameOver, since only restart_game clears it), the event loop spawns one pipe
pair per pending ADD_PIPE event, immediately and regardless of the spawn
distance accumulator and threshold, leaving the accumulator and the game-over
flag untouched; and each keydown of f posts one ADD_PIPE event to the queue. -/
theorem add_pipe_event_spawns (rand : ℤ) (events : List PyEvent) (g : GMState)
    (h : g.gameStarted = true) :
    (eventLoop rand g events).1.pipes.length
      = g.pipes.length + 2 * events.count PyEvent.addPipe ∧
    (eventLoop rand g events).1.previousPipeSerial
      = g.previousPipeSerial + events.count PyEvent.addPipe ∧
    (eventLoop rand g events).1.distanceFromLastPipe = g.distanceFromLastPipe ∧
    (eventLoop rand g events).1.pipeSpawningDist = g.pipeSpawningDist ∧
    (eventLoop rand g events).1.gameEnded = g.gameEnded ∧
    (eventLoop rand g events).2.1.count PyEvent.addPipe
      = events.count (PyEvent.keydown true) := by
  induction events generalizing g with
  | nil => simp [eventLoop]
  | cons e es ih =>
    by_cases he : e = PyEvent.addPipe
    · subst he
      have hg1 : (addPipesGM rand g).gameStarted = true := by simp [addPipesGM, h]
      obtain ⟨i1, i2, i3, i4, i5, i6⟩ := ih (addPipesGM rand g) hg1
      have a1 : (addPipesGM rand g).pipes.length = g.pipes.length + 2 := by
        simp [addPipesGM]
      have a2 : (addPipesGM rand g).previousPipeSerial = g.previousPipeSerial + 1 := rfl
      have a3 : (addPipesGM rand g).distanceFromLastPipe = g.distanceFromLastPipe := rfl
      have a4 : (addPipesGM rand g).pipeSpawningDist = g.pipeSpawningDist := rfl
      have a5 : (addPipesGM rand g).gameEnded = g.gameEnded := rfl
      have hne : PyEvent.keydown true ≠ PyEvent.addPipe := by simp
      simp only [eventLoop, h, and_self, if_true, reduceCtorEq, if_false,
        List.nil_append]
      refine ⟨?_, ?_, ?_, ?_, ?_, ?_⟩
      · rw [i1, a1, List.count_cons_self]
        omega
      · rw [i2, a2, List.count_cons_self]
        omega
      · rw [i3, a3]
      · rw [i4, a4]
      · rw [i5, a5]
      · rw [i6, List.count_cons_of_ne hne]
    · have hg1 : (if e = PyEvent.addPipe ∧ g.gameStarted = true
          then addPipesGM rand g else g) = g := by
        simp [he]
      obtain ⟨i1, i2, i3, i4, i5, i6⟩ := ih g h
      simp only [eventLoop, hg1]
      by_cases hk : e = PyEvent.keydown true
      · subst hk
        refine ⟨?_, ?_, ?_, ?_, ?_, ?_⟩ <;>
          simp [i1, i2, i3, i4, i5, i6, List.count_cons, he]
      · refine ⟨?_, ?_, ?_, ?_, ?_, ?_⟩ <;>
          simp [i1, i2, i3, i4, i5, i6, List.count_cons, he, hk]

/-- Witness for `add_pipe_event_spawns` in a game-over state: the pending
ADD_PIPE event still spawns a pair (4 pipes from 2), and the f keydown posts
one new ADD_PIPE. -/
theorem add_pipe_event_spawns_witness :
    gameOverExample.gameStarted = true ∧
    (eventLoop 300 gameOverExample
        [PyEvent.keydown true, PyEvent.addPipe, PyEvent.quit]).1.pipes.length
      = gameOverExample.pipes.length +
        2 * [PyEvent.keydown true, PyEvent.addPipe, PyEvent.quit].count PyEvent.addPipe ∧
    (eventLoop 300 gameOverExample
        [PyEvent.keydown true, PyEvent.addPipe, PyEvent.quit]).1.distanceFromLastPipe
      = gameOverExample.distanceFromLastPipe ∧
    (eventLoop 300 gameOverExample
        [PyEvent.keydown true, PyEvent.addPipe, PyEvent.quit]).2.1.count PyEvent.addPipe
      = [PyEvent.keydown true, PyEvent.addPipe, PyEvent.quit].count
          (PyEvent.keydown true) :=
  ⟨rfl,
    (add_pipe_event_spawns 300 [PyEvent.keydown true, PyEvent.addPipe, PyEvent.quit]
      gameOverExample rfl).1,
    (add_pipe_event_spawns 300 [PyEvent.keydown true, PyEvent.addPipe, PyEvent.quit]
      gameOverExample rfl).2.2.1,
    (add_pipe_event_spawns 300 [PyEvent.keydown true, PyEvent.addPipe, PyEvent.quit]
      gameOverExample rfl).2.2.2.2.2⟩

/-- The short randint upper bounds are at most 520. -/
lemma shortPipeHOffset_le (i : Fin 3) : shortPipeHOffset i ≤ 520 := by
  fin_cases i <;> norm_num [shortPipeHOffset, pipeHeightOffsets, minPipeHeight]

/-- The far randint upper bounds are at most 720. -/
lemma farPipeHOffset_le (i : Fin 3) : farPipeHOffset i ≤ 720 := by
  fin_cases i <;> norm_num [farPipeHOffset, pipeHeightOffsets, minPipeHeight, pipeGapWidth]

/-- Claim C3 — confirmed (conditioned on the two asset dimensions involved: the
pipe head image is at most min_pipe_height = 70 px tall, as the source comment
for min_pipe_height demands, and the ground line is at least 720 px plus a head
height down the screen, which holds for the 900 px window with its ground
strip). For every admissible randint draw in either spawn branch, the freshly
spawned pair has bottom gap edge minus top gap edge exactly pipe_gap_width =
200, a nonnegative top gap edge, and a bottom gap edge at or above the ground
line. -/
theorem spawned_pair_gap_geometry (gameHeight headH lastGapPos r : ℤ) (i : Fin 3)
    (hh0 : 0 ≤ headH) (hh : headH ≤ minPipeHeight)
    (hg : 720 + headH ≤ gameHeight)
    (hr : if farthestSide gameHeight lastGapPos = 0
      then minPipeHeight ≤ r ∧ r ≤ shortPipeHOffset i
      else minPipeHeight + pipeGapWidth ≤ r ∧ r ≤ farPipeHOffset i) :
    bottomGapEdge gameHeight headH (topPipeHeightDraw gameHeight lastGapPos r)
        - topGapEdge headH (topPipeHeightDraw gameHeight lastGapPos r)
      = pipeGapWidth ∧
    0 ≤ topGapEdge headH (topPipeHeightDraw gameHeight lastGapPos r) ∧
    bottomGapEdge gameHeight headH (topPipeHeightDraw gameHeight lastGapPos r)
      ≤ gameHeight := by
  have hshort := shortPipeHOffset_le i
  have hfar := farPipeHOffset_le i
  rw [minPipeHeight] at hh
  by_cases hfs : farthestSide gameHeight lastGapPos = 0
  · rw [if_pos hfs] at hr
    rw [minPipeHeight] at hr
    obtain ⟨hr1, hr2⟩ := hr
    have hR : topPipeHeightDraw gameHeight lastGapPos r = r := by
      rw [topPipeHeightDraw, if_pos hfs]
      ring
    rw [hR, topGapEdge, bottomGapEdge, pipeTotalHeight, pipeTotalHeight, pipeGapWidth]
    rw [max_eq_right (by omega), max_eq_right (by omega)]
    refine ⟨by ring, by omega, by omega⟩
  · rw [if_neg hfs] at hr
    rw [minPipeHeight, pipeGapWidth] at hr
    obtain ⟨hr1, hr2⟩ := hr
    have hR : topPipeHeightDraw gameHeight lastGapPos r = gameHeight - r := by
      rw [topPipeHeightDraw, if_neg hfs]
    rw [hR, topGapEdge, bottomGapEdge, pipeTotalHeight, pipeTotalHeight, pipeGapWidth]
    rw [max_eq_right (by omega), max_eq_right (by omega)]
    refine ⟨by ring, by omega, by omega⟩

/-- Witness for `spawned_pair_gap_geometry`: ground line at 800, head 70 px,
previous gap at the top, draw 400 in the ground-side branch of tier 0. -/
theorem spawned_pair_gap_geometry_witness :
    ((0 : ℤ) ≤ 70 ∧ (70 : ℤ) ≤ minPipeHeight ∧ 720 + (70 : ℤ) ≤ 800 ∧
      (if farthestSide 800 0 = 0
        then minPipeHeight ≤ (400 : ℤ) ∧ (400 : ℤ) ≤ shortPipeHOffset 0
        else minPipeHeight + pipeGapWidth ≤ (400 : ℤ) ∧
          (400 : ℤ) ≤ farPipeHOffset 0)) ∧
    (bottomGapEdge 800 70 (topPipeHeightDraw 800 0 400)
        - topGapEdge 70 (topPipeHeightDraw 800 0 400) = pipeGapWidth ∧
      0 ≤ topGapEdge 70 (topPipeHeightDraw 800 0 400) ∧
      bottomGapEdge 800 70 (topPipeHeightDraw 800 0 400) ≤ 800) :=
  ⟨by decide,
    spawned_pair_gap_geometry 800 70 0 400 0 (by decide) (by decide) (by decide)
      (by decide)⟩

end FlappyBird
